import Mathlib

/-!
Verification of lastdotnet/token-images.

JS strings are modelled as lists of UTF-16 code units (`List Nat`).
The HTTP layer (src/unnamed/part_000) and the image service
(src/src/services/image-s3-service.ts) are embedded from their source.
The sync coordinator (`SyncService`, file sync-service.ts) is not among the
provided sources, so it is modelled from the spec where indicated.
-/

namespace TokenImages

/-- Code units of an ASCII string literal; JS strings are modelled as
lists of UTF-16 code units (`List Nat`). -/
def code (s : String) : List Nat := s.toList.map Char.toNat

/-- Lowercasing of one code unit. The source applies `toLowerCase` only to
ASCII file extensions, so the ASCII case mapping models it. -/
def jsToLower (c : Nat) : Nat := if 65 ≤ c ∧ c ≤ 90 then c + 32 else c

/-- Model of `s.toLowerCase()` on the code-unit representation. -/
def lowerStr (s : List Nat) : List Nat := s.map jsToLower

/-- The extension-to-MIME association table inside `getMimeType`
(src/src/services/image-s3-service.ts, lines 20-31). -/
def mimeTypes : List (List Nat × List Nat) := [
  (code "png", code "image/png"),
  (code "jpg", code "image/jpeg"),
  (code "jpeg", code "image/jpeg"),
  (code "webp", code "image/webp"),
  (code "svg", code "image/svg+xml"),
  (code "gif", code "image/gif"),
  (code "bmp", code "image/bmp"),
  (code "ico", code "image/x-icon"),
  (code "tiff", code "image/tiff"),
  (code "tif", code "image/tiff")]

/-- The fallback MIME type `application/octet-stream`. -/
def octetStream : List Nat := code "application/octet-stream"

/-- `getMimeType` (src/src/services/image-s3-service.ts, lines 16-34):
strip one leading dot (code unit 46), lowercase, look the result up in the
table, defaulting to `application/octet-stream`. -/
def getMimeType (extension : List Nat) : List Nat :=
  let cleanExtension := if extension.head? = some 46 then extension.tail else extension
  (mimeTypes.lookup (lowerStr cleanExtension)).getD octetStream

/-! ## Sync coordinator core (SyncService)

The file sync-service.ts is not among the provided sources; the coordinator
is modelled from the spec (sections 3, 4.1-4.3). -/

/-- Modelled from the spec: job status of a `SyncJob`; `idle` is represented
by the absence of a record. -/
inductive JobStatus
  | running
  | succeeded
  | failed
deriving DecidableEq, Repr

/-- Modelled from the spec: a `SyncJob` record (section 3), keyed externally
by network identifier. -/
structure SyncJob where
  status : JobStatus
  startedAt : Nat
  finishedAt : Option Nat
  result : Option String
  error : Option String
deriving DecidableEq, Repr

/-- Modelled from the spec: the coordinator state: the Job Status Store and
the Rate Limiter's `lastAttemptAt` records, both keyed by network id. -/
structure SyncState where
  jobs : List (Nat × SyncJob)
  lastAttemptAt : List (Nat × Nat)
deriving Repr

/-- Modelled from the spec: the state of a fresh process: no job records and
no rate-limit records. -/
def initialSyncState : SyncState := ⟨[], []⟩

/-- Modelled from the spec: `put(key, job)` of the Job Status Store
(section 4.2); the store is a mapping, so a put replaces any record held
under the same key. -/
def storePut (k : Nat) (j : SyncJob) (store : List (Nat × SyncJob)) :
    List (Nat × SyncJob) :=
  (k, j) :: store.filter (fun p => p.1 != k)

/-- Modelled from the spec: recording `lastAttemptAt = now` for a key in the
Rate Limiter state. -/
def ratePut (k v : Nat) (m : List (Nat × Nat)) : List (Nat × Nat) :=
  (k, v) :: m.filter (fun p => p.1 != k)

/-- Modelled from the spec: `compareAndSetRunning(key, newJob)`
(section 4.2): stores `newJob` only if the current record for `key` is
absent or not `running`; otherwise no mutation (`none`). -/
def casRunning (k : Nat) (j : SyncJob) (store : List (Nat × SyncJob)) :
    Option (List (Nat × SyncJob)) :=
  match store.lookup k with
  | some cur =>
    if cur.status = JobStatus.running then none else some (storePut k j store)
  | none => some (storePut k j store)

/-- Modelled from the spec: the Rate Limiter's answer (section 4.1). -/
inductive RateDecision
  | allowed
  | denied (remainingTime : Nat)
deriving DecidableEq, Repr

/-- Modelled from the spec: `checkAndRecord(key, cooldownDuration, now)`
(section 4.1): first-ever attempt is allowed; boundary-equal elapsed time is
allowed (section 4.3 recommends the `>=` comparison); on `Allowed` the
limiter records `lastAttemptAt = now` in the same step; on `Denied` there
is no side effect and `remainingTime = cooldownDuration - (now - lastAttemptAt)`. -/
def checkAndRecord (cooldown : Nat) (s : SyncState) (networkId now : Nat) :
    SyncState × RateDecision :=
  match s.lastAttemptAt.lookup networkId with
  | some last =>
    if cooldown ≤ now - last then
      ({ s with lastAttemptAt := ratePut networkId now s.lastAttemptAt }, .allowed)
    else (s, .denied (cooldown - (now - last)))
  | none =>
    ({ s with lastAttemptAt := ratePut networkId now s.lastAttemptAt }, .allowed)

/-- Modelled from the spec: the discriminated result of `start` (section 3). -/
inductive SyncOutcome
  | started (job : SyncJob)
  | alreadyRunning (job : SyncJob)
  | rateLimited (networkId remainingTime : Nat) (message : String)
deriving DecidableEq, Repr

/-- Modelled from the spec: the human-readable message of a rate-limited
outcome, identifying the network id and the wait. -/
def rateLimitMessage (networkId remainingTime : Nat) : String :=
  "Rate limit exceeded for chain " ++ toString networkId ++
    "; retry in " ++ toString remainingTime ++ " ms"

/-- Modelled from the spec: the fresh `running` record written by a
launched attempt: `startedAt = now`, no completion data yet. -/
def freshJob (now : Nat) : SyncJob :=
  { status := .running, startedAt := now, finishedAt := none,
    result := none, error := none }

/-- Modelled from the spec: steps 2-3 of `start` (section 4.3), reached when
no running job was observed: consult the Rate Limiter, then transition the
store to `running` through `compareAndSetRunning`, falling back to
`alreadyRunning` with the latest snapshot if the compare-and-set fails. -/
def startFresh (cooldown : Nat) (s : SyncState) (networkId now : Nat) :
    SyncState × SyncOutcome :=
  match checkAndRecord cooldown s networkId now with
  | (_, .denied r) =>
    (s, .rateLimited networkId r (rateLimitMessage networkId r))
  | (s1, .allowed) =>
    match casRunning networkId (freshJob now) s1.jobs with
    | some jobs1 => ({ s1 with jobs := jobs1 }, .started (freshJob now))
    | none =>
      match s1.jobs.lookup networkId with
      | some cur => (s1, .alreadyRunning cur)
      | none => (s1, .alreadyRunning (freshJob now))

/-- Modelled from the spec: `start(networkId)` (section 4.3): if the current
record is `running`, return `alreadyRunning` at once without touching the
rate limiter; otherwise run `startFresh`. -/
def startSync (cooldown : Nat) (s : SyncState) (networkId now : Nat) :
    SyncState × SyncOutcome :=
  match s.jobs.lookup networkId with
  | some j =>
    if j.status = JobStatus.running then (s, .alreadyRunning j)
    else startFresh cooldown s networkId now
  | none => startFresh cooldown s networkId now

/-- Modelled from the spec: `getStatus(networkId)` (section 4.3): a pure
read of the Job Status Store. -/
def getSyncStatus (s : SyncState) (networkId : Nat) : Option SyncJob :=
  s.jobs.lookup networkId

/-- Modelled from the spec: provider completion (section 4.3 step 5): the
stored record becomes `succeeded` with the result payload or `failed` with
an error description, and `finishedAt` is set. -/
def finishJob (j : SyncJob) (success : Bool) (payload : String) (t : Nat) :
    SyncJob :=
  if success
    then { j with status := .succeeded, finishedAt := some t, result := some payload }
    else { j with status := .failed, finishedAt := some t, error := some payload }

/-- Modelled from the spec: provider completion applied to the store: the
running record for the key is replaced by the finished one; a completion
for a key with no record is a no-op. -/
def completeSync (s : SyncState) (networkId : Nat) (success : Bool)
    (payload : String) (t : Nat) : SyncState :=
  match s.jobs.lookup networkId with
  | some j =>
    { s with jobs := storePut networkId (finishJob j success payload t) s.jobs }
  | none => s

/-- Modelled from the spec: the transitions of the coordinator visible to
its callers: `start`, provider completion, and `getStatus`. -/
inductive SyncOp
  | opStart (networkId now : Nat)
  | opComplete (networkId : Nat) (success : Bool) (payload : String) (t : Nat)
  | opGetStatus (networkId : Nat)

/-- Modelled from the spec: the state reached by one transition. -/
def applyOp (cooldown : Nat) (s : SyncState) : SyncOp → SyncState
  | .opStart n now => (startSync cooldown s n now).1
  | .opComplete n ok payload t => completeSync s n ok payload t
  | .opGetStatus _ => s

/-- Modelled from the spec: the state reached from the fresh process state by
a sequence of transitions. -/
def runOps (cooldown : Nat) (ops : List SyncOp) : SyncState :=
  ops.foldl (applyOp cooldown) initialSyncState

/-- The records of the store that hold key `k` with a `running` job. -/
def runningRecords (k : Nat) (jobs : List (Nat × SyncJob)) :
    List (Nat × SyncJob) :=
  jobs.filter (fun p => decide (p.1 = k ∧ p.2.status = JobStatus.running))

/-- Keys of the job store are pairwise distinct. -/
def NodupKeys (jobs : List (Nat × SyncJob)) : Prop :=
  (jobs.map Prod.fst).Nodup

/-! ## HTTP layer (src/unnamed/part_000)

The handlers are embedded as pure functions of the request's raw `chainId`
path parameter, an oracle for the JS `Number` builtin, and an oracle for the
`SyncService` instance; each handler also returns the list of sync-service
calls it makes, in order. -/

/-- Classification of the value of `Number(val)` for a string `val`: `NaN`,
an integer value, or a finite non-integer value. The builtin itself is taken
as an oracle parameter of the parsing function. -/
inductive JsNumber
  | nan
  | intVal (i : Int)
  | nonIntVal
deriving DecidableEq, Repr

/-- The message of the error thrown inside the `chainId` transform of
`syncParamsSchema` (src/unnamed/part_000, line 58). -/
def chainIdErrorMessage (raw : List Nat) : String :=
  "chainId must be a valid positive integer value: " ++
    String.mk (raw.map Char.ofNat)

/-- An error caught by a handler's catch block: either a `z.ZodError` or a
plain thrown `Error` with a message. -/
inductive HandlerError
  | zodErr (details : List String)
  | plainErr (message : String)
deriving DecidableEq, Repr

/-- `syncParamsSchema.parse` applied to the chainId path parameter
(src/unnamed/part_000, lines 54-62). The path parameter is always a string, so `z.string()` itself
never fails; when `Number(val)` is `NaN`, non-integer, or negative, the
transform throws a plain `Error`. In Zod v3 an error thrown inside a
`.transform` callback propagates to the caller of `parse` as-is: it is not
wrapped into a `ZodError`, hence the `plainErr` constructor. -/
def parseSyncChainId (jsNumber : List Nat → JsNumber) (raw : List Nat) :
    Except HandlerError Nat :=
  match jsNumber raw with
  | .intVal i =>
    if i < 0 then .error (.plainErr (chainIdErrorMessage raw))
    else .ok i.toNat
  | _ => .error (.plainErr (chainIdErrorMessage raw))

/-- The `SyncService` surface consumed by the handlers: `getSyncStatus` and
`startSync`, taken as oracles. `startSync` resolves either to a job record
or to a rate-limit error object (checked by `isRateLimitError`,
src/unnamed/part_000, lines 78-80). -/
inductive StartResult
  | jobResult (job : SyncJob)
  | rateLimitErr (chainId remainingTime : Nat) (message : String)
deriving DecidableEq, Repr

/-- Oracle for the `syncService` instance used by the handlers. -/
structure SyncApi where
  getSyncStatus : Nat → Option SyncJob
  startSync : Nat → StartResult

/-- One call made by a handler to the sync service. -/
inductive SyncCall
  | getStatusCall (chainId : Nat)
  | startSyncCall (chainId : Nat)
deriving DecidableEq, Repr

/-- The JSON body shapes produced by the sync handlers. -/
inductive JsonBody
  | successJob (job : SyncJob)
  | successNullNoRecord (message : String)
  | rateLimitedBody (chainId remainingTime : Nat) (message : String) -- success false, error, rateLimited true
  | invalidParams (details : List String)
  | internalError (message : String)
deriving DecidableEq, Repr

/-- An HTTP response of the sync endpoints: a status code and a JSON body. -/
structure HttpResponse where
  status : Nat
  body : JsonBody
deriving DecidableEq, Repr

/-- The branch of `GET /sync/:chainId` taken when no running job was found
(src/unnamed/part_000, lines 98-117): call `startSync`; a rate-limit error
maps to 429 with the rate-limit body, any other result to 200 with the job
record. -/
def handleStartBranch (svc : SyncApi) (chainId : Nat) :
    HttpResponse × List SyncCall :=
  match svc.startSync chainId with
  | .rateLimitErr c r m =>
    (⟨429, .rateLimitedBody c r m⟩, [.getStatusCall chainId, .startSyncCall chainId])
  | .jobResult j =>
    (⟨200, .successJob j⟩, [.getStatusCall chainId, .startSyncCall chainId])

/-- The `GET /sync/:chainId` handler (src/unnamed/part_000, lines 82-132):
parse the chainId; on a `ZodError` respond 400 with the issue details, on
any other thrown error respond 500; otherwise read the status, return a
running record as-is with 200, else take the start branch. -/
def handleSyncGet (svc : SyncApi) (jsNumber : List Nat → JsNumber)
    (raw : List Nat) : HttpResponse × List SyncCall :=
  match parseSyncChainId jsNumber raw with
  | .error (.zodErr d) => (⟨400, .invalidParams d⟩, [])
  | .error (.plainErr m) => (⟨500, .internalError m⟩, [])
  | .ok chainId =>
    match svc.getSyncStatus chainId with
    | some existing =>
      if existing.status = JobStatus.running then
        (⟨200, .successJob existing⟩, [.getStatusCall chainId])
      else handleStartBranch svc chainId
    | none => handleStartBranch svc chainId

/-- The message of the no-record response of `GET /sync/:chainId/status`
(src/unnamed/part_000, line 146). -/
def noRecordMessage (chainId : Nat) : String :=
  "No sync process found for chain " ++ toString chainId

/-- The `GET /sync/:chainId/status` handler (src/unnamed/part_000, lines
134-168): parse the chainId, then read the status; respond 200 with the
record, or 200 with a null-data no-record body. -/
def handleSyncStatusGet (svc : SyncApi) (jsNumber : List Nat → JsNumber)
    (raw : List Nat) : HttpResponse × List SyncCall :=
  match parseSyncChainId jsNumber raw with
  | .error (.zodErr d) => (⟨400, .invalidParams d⟩, [])
  | .error (.plainErr m) => (⟨500, .internalError m⟩, [])
  | .ok chainId =>
    match svc.getSyncStatus chainId with
    | some j => (⟨200, .successJob j⟩, [.getStatusCall chainId])
    | none =>
      (⟨200, .successNullNoRecord (noRecordMessage chainId)⟩, [.getStatusCall chainId])

/-! ## Image endpoint and image service -/

/-- An image payload as returned by the retrieval tiers: buffer bytes, a
content type, and an optional extension. -/
structure ImagePayload where
  buffer : List Nat
  contentType : List Nat
  extension : Option (List Nat)
deriving DecidableEq, Repr

/-- A tier consulted by the image endpoint. -/
inductive ImageTier
  | s3Tier
  | dirTier
  | defaultTier
deriving DecidableEq, Repr

/-- An HTTP response of the image endpoint: status, raw body bytes and the
Content-Type header. -/
structure ImageHttpResponse where
  status : Nat
  body : List Nat
  contentType : List Nat
deriving DecidableEq, Repr

/-- The `GET /:chainId/:address` handler after successful parameter
validation (src/unnamed/part_000, lines 177-205): try the object store,
then the source directory, then the default placeholder whose content type
is `getMimeType` of the literal extension `png`. The two retrieval tiers
are oracles; the consulted tiers are returned in order. -/
def serveTokenImage (s3Img dirImg : Option ImagePayload)
    (defaultBuffer : List Nat) : ImageHttpResponse × List ImageTier :=
  match s3Img with
  | some p => (⟨200, p.buffer, p.contentType⟩, [.s3Tier])
  | none =>
    match dirImg with
    | some p => (⟨200, p.buffer, p.contentType⟩, [.s3Tier, .dirTier])
    | none =>
      (⟨200, defaultBuffer, getMimeType (code "png")⟩,
        [.s3Tier, .dirTier, .defaultTier])

/-- Result of one JS async step: a value, or a thrown/rejected error. -/
inductive JsOutcome (α : Type)
  | ok (a : α)
  | thrown (e : String)
deriving DecidableEq, Repr

/-- Model of the S3 `GetObject` response consumed by `getImageFromS3`:
`body = none` models an absent `response.Body`; when a body is present,
streaming its chunks may itself reject. -/
structure S3ResponseModel where
  body : Option (JsOutcome (List (List Nat)))
  contentType : Option (List Nat)
  metadataExtension : Option (List Nat)

/-- Oracle for the S3 client behaviour observed by one `getImageFromS3`
call: `s3Client.send` returns a response or throws. -/
structure S3Env where
  send : JsOutcome S3ResponseModel

/-- The try-block of `getImageFromS3` (src/src/services/image-s3-service.ts,
lines 41-86): send the GetObject command, bail out with `none` when there is
no body, concatenate the streamed chunks, derive the content type from the
`extension` metadata through `getMimeType` when present, else from the
response's ContentType, defaulting to `application/octet-stream`. -/
def getImageFromS3Go (env : S3Env) : JsOutcome (Option ImagePayload) :=
  match env.send with
  | .thrown e => .thrown e
  | .ok resp =>
    match resp.body with
    | none => .ok none
    | some (.thrown e) => .thrown e
    | some (.ok chunks) =>
      let buffer := chunks.flatten
      match resp.metadataExtension with
      | some ext => .ok (some ⟨buffer, getMimeType ext, some ext⟩)
      | none => .ok (some ⟨buffer, resp.contentType.getD octetStream, none⟩)

/-- `getImageFromS3` (src/src/services/image-s3-service.ts, lines 37-91):
the try-block wrapped in the catch-all that returns `null`. -/
def getImageFromS3 (env : S3Env) : JsOutcome (Option ImagePayload) :=
  match getImageFromS3Go env with
  | .thrown _ => .ok none
  | .ok v => .ok v

/-- Oracle for the filesystem behaviour observed by one
`getImageFromSourceDir` call: `readdir` on the token directory and
`readFile` on a chosen file, each able to reject. -/
structure DirEnv where
  readdirResult : JsOutcome (List (List Nat))
  readFileResult : List Nat → JsOutcome (List Nat)

/-- `f.split(".").pop()`: the last dot-separated component of a file name. -/
def splitPopDot (f : List Nat) : Option (List Nat) :=
  (f.splitOn 46).getLast?

/-- The file chosen by `getImageFromSourceDir` (src/unnamed/part_000, lines
18-20): the first file named `image.png*`, else the first named
`image.jpg*`, else the first named `image.*`. -/
def pickImageFile (files : List (List Nat)) : Option (List Nat) :=
  (files.find? (fun f => (code "image.png").isPrefixOf f)).orElse fun _ =>
    (files.find? (fun f => (code "image.jpg").isPrefixOf f)).orElse fun _ =>
      files.find? (fun f => (code "image.").isPrefixOf f)

/-- The try-block of `getImageFromSourceDir` (src/unnamed/part_000, lines
14-33): list the token directory, pick an image file, read it, and derive
the content type from the file's last extension component. -/
def getImageFromSourceDirGo (env : DirEnv) : JsOutcome (Option ImagePayload) :=
  match env.readdirResult with
  | .thrown e => .thrown e
  | .ok files =>
    match pickImageFile files with
    | none => .ok none
    | some f =>
      let extension := splitPopDot f
      match env.readFileResult f with
      | .thrown e => .thrown e
      | .ok buf =>
        let ct := match extension with
          | some e => getMimeType e
          | none => octetStream
        .ok (some ⟨buf, ct, extension⟩)

/-- `getImageFromSourceDir` (src/unnamed/part_000, lines 10-37): the
try-block wrapped in the catch-all that returns `null`. -/
def getImageFromSourceDir (env : DirEnv) : JsOutcome (Option ImagePayload) :=
  match getImageFromSourceDirGo env with
  | .thrown _ => .ok none
  | .ok v => .ok v

/-! ## Bulk existence check -/

/-- A token reference passed to `bulkCheckImagesInS3`. -/
structure TokenRef where
  chainId : Nat
  address : List Nat
deriving DecidableEq, Repr

/-- One element of the result of `bulkCheckImagesInS3`. -/
structure TokenCheck where
  chainId : Nat
  address : List Nat
  exists? : Bool
deriving DecidableEq, Repr

/-- The settlement of one promise, as reported by `Promise.allSettled`. -/
inductive SettledResult (α : Type)
  | fulfilled (value : α)
  | rejected (reason : String)
deriving DecidableEq, Repr

/-- `bulkCheckImagesInS3` (src/src/services/image-s3-service.ts, lines
153-169): settle one existence check per token, then rebuild the result
from `tokens[index]` and the settled value, with `exists` false when the
per-token promise did not fulfil. The per-token settlement is an oracle. -/
def bulkCheckImagesInS3 (tokens : List TokenRef)
    (settle : TokenRef → SettledResult Bool) : List TokenCheck :=
  let results := tokens.map fun t =>
    match settle t with
    | .fulfilled b =>
      SettledResult.fulfilled (TokenCheck.mk t.chainId t.address b)
    | .rejected r => SettledResult.rejected r
  List.zipWith (fun r t =>
    { chainId := t.chainId, address := t.address,
      exists? := match r with
        | .fulfilled v => v.exists?
        | .rejected _ => false }) results tokens

/-! ## Witness fixtures -/

/-- Witness oracle: a sync service with no record and a plain job result. -/
def trivialSyncApi : SyncApi where
  getSyncStatus := fun _ => none
  startSync := fun _ => .jobResult (freshJob 0)

/-- Witness oracle: a sync service holding a running record for every key. -/
def runningSyncApi : SyncApi where
  getSyncStatus := fun _ => some (freshJob 0)
  startSync := fun _ => .jobResult (freshJob 0)

/-- Witness oracle: a sync service whose start is rate limited. -/
def rateLimitedSyncApi : SyncApi where
  getSyncStatus := fun _ => none
  startSync := fun _ => .rateLimitErr 8453 30000 "wait"

/-- Witness payload for the image endpoint. -/
def samplePayload : ImagePayload := ⟨code "bytes", code "image/png", some (code "png")⟩

/-- Witness token for the bulk check. -/
def sampleToken : TokenRef := ⟨1, code "0xabc"⟩

/-! ## Theorems -/

theorem jsToLower_idem (c : Nat) : jsToLower (jsToLower c) = jsToLower c := by
  unfold jsToLower
  split_ifs <;> omega

theorem jsToLower_eq_dot {c : Nat} : jsToLower c = 46 ↔ c = 46 := by
  unfold jsToLower
  split_ifs <;> omega

theorem lowerStr_idem (s : List Nat) : lowerStr (lowerStr s) = lowerStr s := by
  simp [lowerStr, List.map_map, Function.comp_def, jsToLower_idem]

theorem lookup_eq_none_of_keys {l : List (List Nat × List Nat)} {k : List Nat}
    (h : ∀ p ∈ l, p.1 ≠ k) : l.lookup k = none := by
  induction l with
  | nil => rfl
  | cons p t ih =>
    have hk : (k == p.1) = false := by
      have := h p (List.mem_cons_self p t)
      simp [beq_eq_false_iff_ne]
      exact fun e => this e.symm
    simp only [List.lookup, hk]
    exact ih fun q hq => h q (List.mem_cons_of_mem p hq)

theorem mem_values_of_lookup {l : List (List Nat × List Nat)} {k v : List Nat}
    (h : l.lookup k = some v) : v ∈ l.map Prod.snd := by
  induction l with
  | nil => simp [List.lookup] at h
  | cons p t ih =>
    rw [List.lookup] at h
    by_cases hk : k == p.1
    · simp [hk] at h
      simp [h]
    · simp [hk] at h
      simp [ih h]

end TokenImages

namespace TokenImages

/-- C9: getMimeType is invariant under extension normalization. -/
theorem c9_getMimeType_algebraic :
    (∀ e : List Nat, e.head? ≠ some 46 → getMimeType (46 :: e) = getMimeType e) ∧
    (∀ e : List Nat, getMimeType e = getMimeType (lowerStr e)) ∧
    (getMimeType (code "png") = code "image/png" ∧
     getMimeType (code "jpg") = code "image/jpeg" ∧
     getMimeType (code "jpeg") = code "image/jpeg" ∧
     getMimeType (code "webp") = code "image/webp" ∧
     getMimeType (code "svg") = code "image/svg+xml" ∧
     getMimeType (code "gif") = code "image/gif" ∧
     getMimeType (code "bmp") = code "image/bmp" ∧
     getMimeType (code "ico") = code "image/x-icon" ∧
     getMimeType (code "tiff") = code "image/tiff" ∧
     getMimeType (code "tif") = code "image/tiff") ∧
    (∀ e : List Nat,
      lowerStr (if e.head? = some 46 then e.tail else e) ∉ mimeTypes.map Prod.fst →
        getMimeType e = octetStream) ∧
    (∀ e : List Nat, getMimeType e ≠ []) := by
  refine ⟨?_, ?_, ?_, ?_, ?_⟩
  · intro e h
    simp [getMimeType, h]
  · intro e
    cases e with
    | nil => simp [lowerStr]
    | cons c cs =>
      by_cases hc : c = 46
      · subst hc
        simp [getMimeType, lowerStr, List.map_map, Function.comp_def,
          jsToLower_idem, show jsToLower 46 = 46 from by decide]
      · have hc' : jsToLower c ≠ 46 := fun h => hc (jsToLower_eq_dot.mp h)
        simp [getMimeType, lowerStr, hc, hc', List.map_map, Function.comp_def,
          jsToLower_idem]
  · refine ⟨by decide, by decide, by decide, by decide, by decide,
      by decide, by decide, by decide, by decide, by decide⟩
  · intro e h
    have hnone :
        mimeTypes.lookup (lowerStr (if e.head? = some 46 then e.tail else e)) = none :=
      lookup_eq_none_of_keys fun p hp hpk => h (hpk ▸ List.mem_map_of_mem Prod.fst hp)
    simp [getMimeType, hnone]
  · intro e
    simp only [getMimeType]
    cases hl : mimeTypes.lookup (lowerStr (if e.head? = some 46 then e.tail else e)) with
    | none => simp [hl]; decide
    | some m =>
      have hm := mem_values_of_lookup hl
      simp only [mimeTypes, List.map_cons, List.map_nil, List.mem_cons,
        List.not_mem_nil, or_false] at hm
      simp only [hl, Option.getD_some]
      rcases hm with h|h|h|h|h|h|h|h|h|h <;> subst h <;> decide

end TokenImages

namespace TokenImages

theorem storePut_nodupKeys {store : List (Nat × SyncJob)} (k : Nat) (j : SyncJob)
    (h : NodupKeys store) : NodupKeys (storePut k j store) := by
  unfold NodupKeys storePut
  simp only [List.map_cons, List.nodup_cons]
  constructor
  · intro hk
    rcases List.mem_map.mp hk with ⟨p, hp, hpk⟩
    rcases List.mem_filter.mp hp with ⟨_, hne⟩
    simp [bne_iff_ne] at hne
    exact hne hpk
  · exact h.sublist ((List.filter_sublist store).map Prod.fst)

theorem checkAndRecord_jobs (cooldown : Nat) (s : SyncState) (n now : Nat) :
    (checkAndRecord cooldown s n now).1.jobs = s.jobs := by
  unfold checkAndRecord
  cases s.lastAttemptAt.lookup n with
  | none => rfl
  | some last =>
    simp only []
    split_ifs <;> rfl

theorem casRunning_cases (k : Nat) (j : SyncJob) (store : List (Nat × SyncJob)) :
    casRunning k j store = none ∨ casRunning k j store = some (storePut k j store) := by
  unfold casRunning
  cases store.lookup k with
  | none => simp
  | some cur =>
    simp only []
    split_ifs <;> simp

theorem startFresh_jobs_cases (cooldown : Nat) (s : SyncState) (n now : Nat) :
    (startFresh cooldown s n now).1.jobs = s.jobs ∨
      ∃ j, (startFresh cooldown s n now).1.jobs = storePut n j s.jobs := by
  have hjobs := checkAndRecord_jobs cooldown s n now
  unfold startFresh
  rcases hcr : checkAndRecord cooldown s n now with ⟨s1, d⟩
  rw [hcr] at hjobs
  cases d with
  | denied r => simp
  | allowed =>
    simp only []
    have hjobs' : s1.jobs = s.jobs := hjobs
    rcases casRunning_cases n (freshJob now) s1.jobs with hc | hc <;> rw [hc]
    · cases s1.jobs.lookup n <;> exact Or.inl hjobs'
    · exact Or.inr ⟨freshJob now, by rw [hjobs']⟩

theorem startSync_jobs_cases (cooldown : Nat) (s : SyncState) (n now : Nat) :
    (startSync cooldown s n now).1.jobs = s.jobs ∨
      ∃ j, (startSync cooldown s n now).1.jobs = storePut n j s.jobs := by
  unfold startSync
  cases s.jobs.lookup n with
  | none => exact startFresh_jobs_cases cooldown s n now
  | some j =>
    simp only []
    split_ifs
    · simp
    · exact startFresh_jobs_cases cooldown s n now

theorem completeSync_jobs_cases (s : SyncState) (n : Nat) (ok : Bool)
    (payload : String) (t : Nat) :
    (completeSync s n ok payload t).jobs = s.jobs ∨
      ∃ j, (completeSync s n ok payload t).jobs = storePut n j s.jobs := by
  unfold completeSync
  cases s.jobs.lookup n with
  | none => simp
  | some j => exact Or.inr ⟨_, rfl⟩

theorem applyOp_nodupKeys (cooldown : Nat) (s : SyncState) (op : SyncOp)
    (h : NodupKeys s.jobs) : NodupKeys (applyOp cooldown s op).jobs := by
  cases op with
  | opStart n now =>
    rcases startSync_jobs_cases cooldown s n now with hc | ⟨j, hc⟩ <;>
      simp only [applyOp, hc]
    · exact h
    · exact storePut_nodupKeys n j h
  | opComplete n ok payload t =>
    rcases completeSync_jobs_cases s n ok payload t with hc | ⟨j, hc⟩ <;>
      simp only [applyOp, hc]
    · exact h
    · exact storePut_nodupKeys n j h
  | opGetStatus n => exact h

theorem runOps_nodupKeys (cooldown : Nat) (ops : List SyncOp) :
    NodupKeys (runOps cooldown ops).jobs := by
  suffices h : ∀ s, NodupKeys s.jobs → NodupKeys (ops.foldl (applyOp cooldown) s).jobs by
    exact h initialSyncState (by simp [initialSyncState, NodupKeys])
  induction ops with
  | nil => exact fun s hs => hs
  | cons op t ih =>
    intro s hs
    exact ih _ (applyOp_nodupKeys cooldown s op hs)

theorem runningRecords_len {jobs : List (Nat × SyncJob)} (k : Nat)
    (h : NodupKeys jobs) : (runningRecords k jobs).length ≤ 1 := by
  unfold runningRecords
  induction jobs with
  | nil => simp
  | cons p t ih =>
    unfold NodupKeys at h ih
    simp only [List.map_cons, List.nodup_cons] at h
    rw [List.filter_cons]
    by_cases hp : p.1 = k ∧ p.2.status = JobStatus.running
    · rw [if_pos (by simpa using hp)]
      have hnil : t.filter (fun q => decide (q.1 = k ∧ q.2.status = JobStatus.running)) = [] := by
        rw [List.filter_eq_nil_iff]
        intro q hq hdq
        simp only [decide_eq_true_eq] at hdq
        exact h.1 (hp.1 ▸ hdq.1 ▸ List.mem_map_of_mem Prod.fst hq)
      rw [hnil]
      simp
    · rw [if_neg (by simpa using hp)]
      exact ih h.2


/-- C2: in every state reachable by a sequence of getStatus, start, and
provider-completion transitions, at most one record per network identifier
is in running state; the store never holds two concurrently-running records
for the same key. -/
theorem c2_at_most_one_running (cooldown : Nat) (ops : List SyncOp) (k : Nat) :
    (runningRecords k (runOps cooldown ops).jobs).length ≤ 1 :=
  runningRecords_len k (runOps_nodupKeys cooldown ops)

/-- C1: starting a sync, letting it complete, and starting again within the
cooldown window yields rateLimited on the second call, with remainingTime
equal to cooldown - (now - lastAttemptAt), strictly positive and at most
cooldown. -/
theorem c1_second_start_rate_limited (cooldown n t1 t2 tc : Nat)
    (payload : String) (ok : Bool) (h1 : t1 ≤ t2) (h2 : t2 - t1 < cooldown) :
    (∃ j, (startSync cooldown initialSyncState n t1).2 = SyncOutcome.started j) ∧
    (startSync cooldown
        (completeSync (startSync cooldown initialSyncState n t1).1 n ok payload tc)
        n t2).2 =
      SyncOutcome.rateLimited n (cooldown - (t2 - t1))
        (rateLimitMessage n (cooldown - (t2 - t1))) ∧
    0 < cooldown - (t2 - t1) ∧ cooldown - (t2 - t1) ≤ cooldown := by
  have hnle : ¬ cooldown ≤ t2 - t1 := by omega
  refine ⟨⟨freshJob t1, ?_⟩, ?_, by omega, Nat.sub_le _ _⟩
  · simp [startSync, initialSyncState, startFresh, checkAndRecord, casRunning,
      List.lookup]
  · cases ok <;>
      simp [startSync, initialSyncState, startFresh, checkAndRecord, casRunning,
        completeSync, finishJob, freshJob, storePut, ratePut, List.lookup, hnle]


/-- C3: the handlers reject a chainId path parameter that does not denote a
non-negative integer without invoking the sync service; the thrown transform
error is not a ZodError, so the catch block answers 500, not 4xx. -/
theorem c3_invalid_chain_id_yields_500 (svc : SyncApi)
    (jsNumber : List Nat → JsNumber) (raw : List Nat)
    (h : ∀ n : Nat, jsNumber raw ≠ JsNumber.intVal (n : Int)) :
    handleSyncGet svc jsNumber raw =
      (⟨500, .internalError (chainIdErrorMessage raw)⟩, []) ∧
    handleSyncStatusGet svc jsNumber raw =
      (⟨500, .internalError (chainIdErrorMessage raw)⟩, []) := by
  have hp : parseSyncChainId jsNumber raw =
      .error (.plainErr (chainIdErrorMessage raw)) := by
    unfold parseSyncChainId
    cases hj : jsNumber raw with
    | nan => rfl
    | nonIntVal => rfl
    | intVal i =>
      by_cases hi : i < 0
      · simp [hi]
      · exact absurd (by rw [hj, Int.toNat_of_nonneg (by omega)]) (h i.toNat)
  constructor <;> simp [handleSyncGet, handleSyncStatusGet, hp]

/-- C4: when a running record exists, GET /sync/:chainId answers 200 with
exactly that record and does not call startSync. -/
theorem c4_running_returned_as_is (svc : SyncApi)
    (jsNumber : List Nat → JsNumber) (raw : List Nat) (n : Nat) (j : SyncJob)
    (hp : parseSyncChainId jsNumber raw = .ok n)
    (hs : svc.getSyncStatus n = some j)
    (hr : j.status = JobStatus.running) :
    handleSyncGet svc jsNumber raw =
      (⟨200, .successJob j⟩, [.getStatusCall n]) ∧
    SyncCall.startSyncCall n ∉ (handleSyncGet svc jsNumber raw).2 := by
  have he : handleSyncGet svc jsNumber raw =
      (⟨200, .successJob j⟩, [.getStatusCall n]) := by
    simp [handleSyncGet, hp, hs, hr]
  refine ⟨he, ?_⟩
  rw [he]
  simp

/-- C5: with no running job, GET /sync/:chainId maps a rate-limit rejection
to 429 with the rate-limit body and any other startSync outcome to 200 with
the job record. -/
theorem c5_start_outcome_mapping (svc : SyncApi)
    (jsNumber : List Nat → JsNumber) (raw : List Nat) (n : Nat)
    (hp : parseSyncChainId jsNumber raw = .ok n)
    (hnr : ∀ j, svc.getSyncStatus n = some j → j.status ≠ JobStatus.running) :
    (∀ c r m, svc.startSync n = .rateLimitErr c r m →
      handleSyncGet svc jsNumber raw =
        (⟨429, .rateLimitedBody c r m⟩, [.getStatusCall n, .startSyncCall n])) ∧
    (∀ j, svc.startSync n = .jobResult j →
      handleSyncGet svc jsNumber raw =
        (⟨200, .successJob j⟩, [.getStatusCall n, .startSyncCall n])) := by
  cases hs : svc.getSyncStatus n with
  | none =>
    constructor
    · intro c r m hst
      simp [handleSyncGet, hp, hs, handleStartBranch, hst]
    · intro j hst
      simp [handleSyncGet, hp, hs, handleStartBranch, hst]
  | some j0 =>
    have hns := hnr j0 hs
    constructor
    · intro c r m hst
      simp [handleSyncGet, hp, hs, hns, handleStartBranch, hst]
    · intro j hst
      simp [handleSyncGet, hp, hs, hns, handleStartBranch, hst]

/-- C6: GET /sync/:chainId/status only reads the status, answers 200 with
the record or with the explicit no-record body, and makes no other call. -/
theorem c6_status_endpoint_read_only (svc : SyncApi)
    (jsNumber : List Nat → JsNumber) (raw : List Nat) (n : Nat)
    (hp : parseSyncChainId jsNumber raw = .ok n) :
    (handleSyncStatusGet svc jsNumber raw).1.status = 200 ∧
    (∀ j, svc.getSyncStatus n = some j →
      handleSyncStatusGet svc jsNumber raw =
        (⟨200, .successJob j⟩, [.getStatusCall n])) ∧
    (svc.getSyncStatus n = none →
      handleSyncStatusGet svc jsNumber raw =
        (⟨200, .successNullNoRecord (noRecordMessage n)⟩, [.getStatusCall n])) ∧
    (handleSyncStatusGet svc jsNumber raw).2 = [SyncCall.getStatusCall n] := by
  cases hs : svc.getSyncStatus n with
  | none =>
    refine ⟨?_, ?_, ?_, ?_⟩ <;>
      simp [handleSyncStatusGet, hp, hs]
  | some j0 =>
    refine ⟨?_, ?_, ?_, ?_⟩ <;>
      simp [handleSyncStatusGet, hp, hs]

/-- C7: the image endpoint consults the object store first, the source
directory only when the store has no image, and serves the default
placeholder only when both have none; a tier that yields an image is served
with the contentType that tier reported. -/
theorem c7_image_three_tier_fallback (s3Img dirImg : Option ImagePayload)
    (defaultBuffer : List Nat) :
    (∀ p, s3Img = some p →
      serveTokenImage s3Img dirImg defaultBuffer =
        (⟨200, p.buffer, p.contentType⟩, [.s3Tier])) ∧
    (∀ p, s3Img = none → dirImg = some p →
      serveTokenImage s3Img dirImg defaultBuffer =
        (⟨200, p.buffer, p.contentType⟩, [.s3Tier, .dirTier])) ∧
    (s3Img = none → dirImg = none →
      serveTokenImage s3Img dirImg defaultBuffer =
        (⟨200, defaultBuffer, getMimeType (code "png")⟩,
          [.s3Tier, .dirTier, .defaultTier])) := by
  refine ⟨?_, ?_, ?_⟩
  · intro p h
    simp [serveTokenImage, h]
  · intro p h1 h2
    simp [serveTokenImage, h1, h2]
  · intro h1 h2
    simp [serveTokenImage, h1, h2]

/-- C8: getImageFromS3 and getImageFromSourceDir always resolve to a payload
or null; no behaviour of the underlying storage makes them propagate a
thrown error. -/
theorem c8_retrieval_never_throws :
    (∀ env : S3Env, ∃ v, getImageFromS3 env = JsOutcome.ok v) ∧
    (∀ env : DirEnv, ∃ v, getImageFromSourceDir env = JsOutcome.ok v) := by
  constructor
  · intro env
    cases h : getImageFromS3Go env with
    | thrown e => exact ⟨none, by unfold getImageFromS3; rw [h]⟩
    | ok v => exact ⟨v, by unfold getImageFromS3; rw [h]⟩
  · intro env
    cases h : getImageFromSourceDirGo env with
    | thrown e => exact ⟨none, by unfold getImageFromSourceDir; rw [h]⟩
    | ok v => exact ⟨v, by unfold getImageFromSourceDir; rw [h]⟩

/-- C10: bulkCheckImagesInS3 preserves length and order, carries each input
token's chainId and address through, and reports exists = false for a
token whose check did not fulfil. -/
theorem c10_bulk_check_shape (tokens : List TokenRef)
    (settle : TokenRef → SettledResult Bool) :
    (bulkCheckImagesInS3 tokens settle).length = tokens.length ∧
    ∀ i, (hi : i < (bulkCheckImagesInS3 tokens settle).length) →
      (ht : i < tokens.length) →
      ((bulkCheckImagesInS3 tokens settle).get ⟨i, hi⟩).chainId =
        (tokens.get ⟨i, ht⟩).chainId ∧
      ((bulkCheckImagesInS3 tokens settle).get ⟨i, hi⟩).address =
        (tokens.get ⟨i, ht⟩).address ∧
      ∀ r, settle (tokens.get ⟨i, ht⟩) = SettledResult.rejected r →
        ((bulkCheckImagesInS3 tokens settle).get ⟨i, hi⟩).exists? = false := by
  refine ⟨by simp [bulkCheckImagesInS3], ?_⟩
  intro i hi ht
  simp only [bulkCheckImagesInS3, List.get_eq_getElem, List.getElem_zipWith,
    List.getElem_map]
  cases hset : settle (tokens.get ⟨i, ht⟩) with
  | fulfilled b =>
    simp only [List.get_eq_getElem] at hset
    simp [hset]
  | rejected r =>
    simp only [List.get_eq_getElem] at hset
    simp [hset]

theorem c1_witness :
    (∃ j, (startSync 60000 initialSyncState 1 0).2 = SyncOutcome.started j) ∧
    (startSync 60000
        (completeSync (startSync 60000 initialSyncState 1 0).1 1 true "done" 10)
        1 30000).2 =
      SyncOutcome.rateLimited 1 (60000 - (30000 - 0))
        (rateLimitMessage 1 (60000 - (30000 - 0))) ∧
    0 < 60000 - (30000 - 0) ∧ 60000 - (30000 - 0) ≤ 60000 :=
  c1_second_start_rate_limited 60000 1 0 30000 10 "done" true (by decide) (by decide)

theorem c3_witness :
    handleSyncGet trivialSyncApi (fun _ => JsNumber.nan) (code "abc") =
      (⟨500, .internalError (chainIdErrorMessage (code "abc"))⟩, []) ∧
    handleSyncStatusGet trivialSyncApi (fun _ => JsNumber.nan) (code "abc") =
      (⟨500, .internalError (chainIdErrorMessage (code "abc"))⟩, []) :=
  c3_invalid_chain_id_yields_500 trivialSyncApi (fun _ => JsNumber.nan) (code "abc")
    (fun _ h => JsNumber.noConfusion h)

theorem c4_witness :
    handleSyncGet runningSyncApi (fun _ => JsNumber.intVal 8453) (code "8453") =
      (⟨200, .successJob (freshJob 0)⟩, [.getStatusCall 8453]) ∧
    SyncCall.startSyncCall 8453 ∉
      (handleSyncGet runningSyncApi (fun _ => JsNumber.intVal 8453) (code "8453")).2 :=
  c4_running_returned_as_is runningSyncApi (fun _ => JsNumber.intVal 8453)
    (code "8453") 8453 (freshJob 0) rfl rfl rfl

theorem c5_witness :
    handleSyncGet rateLimitedSyncApi (fun _ => JsNumber.intVal 8453) (code "8453") =
      (⟨429, .rateLimitedBody 8453 30000 "wait"⟩,
        [.getStatusCall 8453, .startSyncCall 8453]) :=
  (c5_start_outcome_mapping rateLimitedSyncApi (fun _ => JsNumber.intVal 8453)
      (code "8453") 8453 rfl (fun _ h => Option.noConfusion h)).1 8453 30000 "wait" rfl

theorem c6_witness :
    handleSyncStatusGet trivialSyncApi (fun _ => JsNumber.intVal 8453) (code "8453") =
      (⟨200, .successNullNoRecord (noRecordMessage 8453)⟩, [.getStatusCall 8453]) :=
  (c6_status_endpoint_read_only trivialSyncApi (fun _ => JsNumber.intVal 8453)
      (code "8453") 8453 rfl).2.2.1 rfl

theorem c7_witness :
    serveTokenImage (some samplePayload) none [] =
      (⟨200, samplePayload.buffer, samplePayload.contentType⟩, [.s3Tier]) :=
  (c7_image_three_tier_fallback (some samplePayload) none []).1 samplePayload rfl

theorem c9_witness :
    getMimeType (46 :: code "png") = getMimeType (code "png") :=
  c9_getMimeType_algebraic.1 (code "png") (by decide)

theorem c10_witness :
    ((bulkCheckImagesInS3 [sampleToken] (fun _ => SettledResult.rejected "boom")).get
        ⟨0, by decide⟩).exists? = false :=
  ((c10_bulk_check_shape [sampleToken] (fun _ => SettledResult.rejected "boom")).2
    0 (by decide) (by decide)).2.2 "boom" rfl

end TokenImages
